import Mathlib

/- Verification development for the Rotalysis pump energy-optimization engine.
   Machine floats are modelled by exact rationals; pandas NaN cells are
   modelled by Option, with none standing for NaN. -/

/-- Banker rounding (round half to even) of a rational to an integer, the
tie-breaking rule used by Python round. -/
def round_half_even (q : ℚ) : ℤ :=
  if q - ⌊q⌋ < 1/2 then ⌊q⌋
  else if 1/2 < q - ⌊q⌋ then ⌊q⌋ + 1
  else if ⌊q⌋ % 2 = 0 then ⌊q⌋ else ⌊q⌋ + 1

/-- Python round(x, 2): round to two decimal places, half to even. -/
def py_round2 (q : ℚ) : ℚ := (round_half_even (q * 100) : ℚ) / 100

/-- From src/rotalysis/economics.py, Economics.ghg_reduction_cost: returns 0
when ghg_reduction is 0, otherwise annualized_spending / ghg_reduction rounded
to two decimals. -/
def ghg_reduction_cost (annualized_spending ghg_reduction : ℚ) : ℚ :=
  if ghg_reduction = 0 then 0 else py_round2 (annualized_spending / ghg_reduction)

/-- One row of the year-indexed cash-flow table built by
Economics.create_cashflow_df in src/rotalysis/economics.py. -/
structure CashflowRow where
  year : ℕ
  fuel_cost : ℚ
  opex : ℚ
  cash_flow : ℚ
deriving DecidableEq

/-- From src/rotalysis/economics.py, Economics.create_cashflow_df: a table
indexed by years 0 .. project_life with zero fuel_cost and opex columns and
cash_flow equal to -capex at year 0 and 0 elsewhere. -/
def create_cashflow_df (capex : ℚ) (project_life : ℕ) : List CashflowRow :=
  (List.range (project_life + 1)).map
    (fun y => ⟨y, 0, 0, if y = 0 then -capex else 0⟩)

/-- From src/rotalysis/economics.py, Economics.inflation_adjusted_opex:
opex scaled by (1 + inflation_rate) ^ (year - min years) for each year. -/
def inflation_adjusted_opex (opex inflation_rate : ℚ) (years : List ℕ) : List ℚ :=
  years.map (fun y => opex * (1 + inflation_rate) ^ (y - (years.min?.getD 0)))

/-- From src/rotalysis/pump.py, Pump.get_economic_calculation (cash-flow table
construction, lines 880-895): the fuel_cost column is set on every year to
annual_energy_savings * electricity_price, the opex column to the
inflation-adjusted opex, and the cash_flow column on years 1 and later to
fuel_cost - opex (year 0 keeps -capex). -/
def get_economic_calculation_cashflow (capex opex annual_energy_savings
    electricity_price inflation_rate : ℚ) (project_life : ℕ) : List CashflowRow :=
  let df := create_cashflow_df capex project_life
  let fuel := annual_energy_savings * electricity_price
  let opexs := inflation_adjusted_opex opex inflation_rate (df.map (fun r => r.year))
  (df.zip opexs).map (fun p =>
    { p.1 with
      fuel_cost := fuel,
      opex := p.2,
      cash_flow := if p.1.year = 0 then p.1.cash_flow else fuel - p.2 })

/-- Lookup of the fuel_cost cell of the cash-flow table at a given year. -/
def fuel_cost_at (table : List CashflowRow) (y : ℕ) : Option ℚ :=
  (table.find? (fun r => r.year == y)).map (fun r => r.fuel_cost)

/-- C8: ghg_reduction_cost(annualized_spending, 0) returns 0 for every
annualized_spending, and for nonzero annual_emission_reduction it returns
annualized_spending / annual_emission_reduction rounded to 2 decimals. -/
theorem C8_ghg_reduction_cost_guard :
    (∀ a : ℚ, ghg_reduction_cost a 0 = 0) ∧
    (∀ a r : ℚ, r ≠ 0 → ghg_reduction_cost a r = py_round2 (a / r)) := by
  constructor
  · intro a
    simp [ghg_reduction_cost]
  · intro a r hr
    simp [ghg_reduction_cost, hr]

/-- Witness for C8 at annualized_spending 5 and 7, emission reduction 0 and 2. -/
theorem C8_witness :
    ghg_reduction_cost 5 0 = 0 ∧
      ((2:ℚ) ≠ 0 ∧ ghg_reduction_cost 7 2 = py_round2 (7 / 2)) :=
  ⟨C8_ghg_reduction_cost_guard.1 5, by decide,
    C8_ghg_reduction_cost_guard.2 7 2 (by decide)⟩

/-- C3: with capex 100000, opex 2000 (opex_rate 0.02 of capex), project life
10, inflation rate 0.02, electricity price 0.1 currency per kWh (written in
the per-kWh unit, so annual energy savings 500 MWh enters as 500000 kWh),
the cash-flow table's fuel_cost at year 1 equals 50000.  The code multiplies
the two raw numbers, so they are instantiated in one consistent energy unit. -/
theorem C3_fuel_cost_year_one :
    fuel_cost_at
      (get_economic_calculation_cashflow 100000 2000 500000 (1/10) (1/50) 10) 1 =
      some 50000 := by
  norm_num [fuel_cost_at, get_economic_calculation_cashflow, create_cashflow_df,
    inflation_adjusted_opex, List.range_succ, List.find?]
  decide

/-- One bin row of the flow-bin calculation table as consumed by the energy
columns step (EnergySavingsCalculator.__get_energy_columns in
src/src/rotalysis/pump/energy_calculator.py and Pump.__get_energy_columns in
src/rotalysis/pump.py).  The src/src revision pins the motor efficiency to
its 0.9 default in both numerator and denominator of the efficiency factor;
the src/rotalysis revision reads it from this per-row column.  Both agree
once the field is instantiated accordingly. -/
structure CalcRow where
  base_motor_power : ℚ
  working_percent : ℚ
  old_pump_efficiency : ℚ
  old_motor_efficiency : ℚ
  selected_speed_variation : ℚ
deriving DecidableEq

/-- working_hours = working_percent * 8760 (energy_calculator.py line 189). -/
def working_hours (r : CalcRow) : ℚ := r.working_percent * 8760

/-- base_case_energy_consumption = base_motor_power * working_hours. -/
def base_case_energy_consumption (r : CalcRow) : ℚ :=
  r.base_motor_power * working_hours r

/-- new_pump_efficiency = old_pump_efficiency (no efficiency change modeled). -/
def new_pump_efficiency (r : CalcRow) : ℚ := r.old_pump_efficiency

/-- new_motor_efficiency = old_motor_efficiency. -/
def new_motor_efficiency (r : CalcRow) : ℚ := r.old_motor_efficiency

/-- eff_factor = (new_pump_efficiency * new_motor_efficiency) /
(old_pump_efficiency * old_motor_efficiency). -/
def eff_factor (r : CalcRow) : ℚ :=
  (new_pump_efficiency r * new_motor_efficiency r) /
    (r.old_pump_efficiency * r.old_motor_efficiency)

/-- proposed_case_energy_consumption = base_case_energy_consumption *
selected_speed_variation ^ 3 * eff_factor. -/
def proposed_case_energy_consumption (r : CalcRow) : ℚ :=
  base_case_energy_consumption r * r.selected_speed_variation ^ 3 * eff_factor r

/-- annual_energy_saving = base case minus proposed case. -/
def annual_energy_saving (r : CalcRow) : ℚ :=
  base_case_energy_consumption r - proposed_case_energy_consumption r

/-- C2 counterexample: with base_motor_power 1, working_percent 1, both
efficiencies 1 and base_case_energy_consumption 8760 > 0, raising the speed
variation from 1/2 to 1 (both in the interval (0, 1]) does not decrease
proposed_case_energy_consumption: the claim's predicted strict decrease fails
at this concrete input. -/
theorem C2_counterexample :
    0 < base_case_energy_consumption ⟨1, 1, 1, 1, 1/2⟩ ∧
      (0:ℚ) < 1/2 ∧ (1:ℚ)/2 < 1 ∧ (1:ℚ) ≤ 1 ∧
      ¬ proposed_case_energy_consumption ⟨1, 1, 1, 1, 1⟩ <
          proposed_case_energy_consumption ⟨1, 1, 1, 1, 1/2⟩ := by
  norm_num [base_case_energy_consumption, proposed_case_energy_consumption,
    working_hours, eff_factor, new_pump_efficiency, new_motor_efficiency]

/-- C2 amended: for a fixed base case with base_case_energy_consumption > 0
and fixed nonzero efficiencies, increasing selected_speed_variation strictly
INCREASES proposed_case_energy_consumption on (0, 1] (the cube law is
strictly monotonically increasing there), hence strictly decreases
annual_energy_saving. -/
theorem C2_cube_law_monotonic (bmp wp peff meff sv1 sv2 : ℚ)
    (hbase : 0 < base_case_energy_consumption ⟨bmp, wp, peff, meff, sv1⟩)
    (hpe : peff ≠ 0) (hme : meff ≠ 0)
    (h1 : 0 < sv1) (h12 : sv1 < sv2) (h2 : sv2 ≤ 1) :
    proposed_case_energy_consumption ⟨bmp, wp, peff, meff, sv1⟩ <
      proposed_case_energy_consumption ⟨bmp, wp, peff, meff, sv2⟩ := by
  have hcube : sv1 ^ 3 < sv2 ^ 3 := by
    exact pow_lt_pow_left₀ h12 h1.le (by norm_num)
  have heff : eff_factor ⟨bmp, wp, peff, meff, sv1⟩ = 1 := by
    simp [eff_factor, new_pump_efficiency, new_motor_efficiency,
      div_self (mul_ne_zero hpe hme)]
  have heff2 : eff_factor ⟨bmp, wp, peff, meff, sv2⟩ = 1 := by
    simp [eff_factor, new_pump_efficiency, new_motor_efficiency,
      div_self (mul_ne_zero hpe hme)]
  have hb : base_case_energy_consumption ⟨bmp, wp, peff, meff, sv2⟩ =
      base_case_energy_consumption ⟨bmp, wp, peff, meff, sv1⟩ := rfl
  simp only [proposed_case_energy_consumption, heff, heff2, hb, mul_one]
  exact mul_lt_mul_of_pos_left hcube hbase

/-- Witness for the amended C2 at base_motor_power 1, working_percent 1,
efficiencies 1, speed variations 1/2 < 1. -/
theorem C2_witness :
    proposed_case_energy_consumption ⟨1, 1, 1, 1, 1/2⟩ <
      proposed_case_energy_consumption ⟨1, 1, 1, 1, 1⟩ :=
  C2_cube_law_monotonic 1 1 1 1 (1/2) 1
    (by norm_num [base_case_energy_consumption, working_hours])
    (by norm_num) (by norm_num) (by norm_num) (by norm_num) (by norm_num)

/-- C5: a bin with selected_speed_variation 1 and nonzero old pump and motor
efficiencies has proposed_case_energy_consumption equal to
base_case_energy_consumption (no retrofit, no change). -/
theorem C5_no_retrofit_no_change (bmp wp peff meff : ℚ)
    (hpe : peff ≠ 0) (hme : meff ≠ 0) :
    proposed_case_energy_consumption ⟨bmp, wp, peff, meff, 1⟩ =
      base_case_energy_consumption ⟨bmp, wp, peff, meff, 1⟩ := by
  simp [proposed_case_energy_consumption, eff_factor, new_pump_efficiency,
    new_motor_efficiency, div_self (mul_ne_zero hpe hme)]

/-- Witness for C5 at base_motor_power 2, working_percent 1, pump efficiency
1/2, motor efficiency 9/10. -/
theorem C5_witness :
    proposed_case_energy_consumption ⟨2, 1, 1/2, 9/10, 1⟩ =
      base_case_energy_consumption ⟨2, 1, 1/2, 9/10, 1⟩ :=
  C5_no_retrofit_no_change 2 1 (1/2) (9/10) (by norm_num) (by norm_num)

/-- Result of PumpFunction.get_speed_variation under numpy float semantics.
A finite nonnegative result is represented exactly by the cube of its value
(val c denotes the real cube root of c, c ≥ 0); posInf models +inf and nan
models NaN (a negative base raised to the fractional power 1/3 is NaN for
numpy float arrays, as is 0/0). -/
inductive SpeedVariation where
  | val : ℚ → SpeedVariation
  | posInf : SpeedVariation
  | nan : SpeedVariation
deriving DecidableEq

/-- From src/src/rotalysis/pump/pump_function.py, PumpFunction.get_speed_variation:
(new_pressure / old_pressure) ** (1/3) with no input validation.  Dividing by
an old_pressure of 0 gives +inf (new positive) or NaN (new zero or negative,
since a negative or NaN base under the fractional power is NaN); a negative
ratio gives NaN; otherwise the finite value whose cube is the ratio. -/
def get_speed_variation (old_pressure new_pressure : ℚ) : SpeedVariation :=
  if old_pressure = 0 then
    (if 0 < new_pressure then SpeedVariation.posInf else SpeedVariation.nan)
  else if new_pressure / old_pressure < 0 then SpeedVariation.nan
  else SpeedVariation.val (new_pressure / old_pressure)

/-- From src/src/rotalysis/pump/pump_function.py,
PumpFunction.get_differential_pressure: discharge minus suction pressure. -/
def get_differential_pressure (discharge_pressure suction_pressure : ℚ) : ℚ :=
  discharge_pressure - suction_pressure

/-- From src/src/rotalysis/pump/data_cleaner.py,
PumpDataCleaner.__get_required_speed_varation (lines 438-444): maps
get_speed_variation over the (differential_pressure,
required_differential_pressure) columns.  The method contains no raise
statement and no guard, so it always returns ok; the Except codomain records
that a CustomException is the pipeline's typed error channel. -/
def get_required_speed_variation_step (rows : List (ℚ × ℚ)) :
    Except String (List SpeedVariation) :=
  Except.ok (rows.map (fun r => get_speed_variation r.1 r.2))

/-- Truth value of an Except being a non-error result. -/
def except_is_ok {ε α : Type} (e : Except ε α) : Bool :=
  match e with
  | Except.ok _ => true
  | Except.error _ => false

/-- Calculation method selector of the pump design data (string-typed enum in
the source: downstream_pressure or cv_opening). -/
inductive CalculationMethod where
  | downstream_pressure : CalculationMethod
  | cv_opening : CalculationMethod
deriving DecidableEq

/-- One raw operating row after numeric coercion, as filtered by
PumpDataCleaner.remove_non_operating_rows.  Mandatory columns are numeric
(rows with NaN mandatory cells have already been dropped by the dropna on
mandatory columns); the optional columns carry none for NaN cells. -/
structure OpRow where
  suction_pressure : ℚ
  discharge_pressure : ℚ
  discharge_flowrate : ℚ
  downstream_pressure : Option ℚ
  cv_opening : Option ℚ
deriving DecidableEq

/-- Row mask of PumpDataCleaner.remove_non_operating_rows
(src/src/rotalysis/pump/data_cleaner.py lines 207-272): keep rows with
discharge_flowrate > 0 and suction_pressure < discharge_pressure; under the
downstream_pressure method additionally require a numeric downstream pressure
strictly below the discharge pressure; under the cv_opening method require a
numeric cv opening above the configured minimum. -/
def row_mask (method : CalculationMethod) (min_cv_opening : ℚ) (r : OpRow) : Bool :=
  (decide (0 < r.discharge_flowrate) &&
    decide (r.suction_pressure < r.discharge_pressure)) &&
  (match method with
   | CalculationMethod.downstream_pressure =>
       (match r.downstream_pressure with
        | some dp => decide (dp < r.discharge_pressure)
        | none => false)
   | CalculationMethod.cv_opening =>
       (match r.cv_opening with
        | some cv => decide (min_cv_opening < cv)
        | none => false))

/-- From src/src/rotalysis/pump/data_cleaner.py,
PumpDataCleaner.remove_non_operating_rows: the kept rows. -/
def remove_non_operating_rows (method : CalculationMethod) (min_cv_opening : ℚ)
    (rows : List OpRow) : List OpRow :=
  rows.filter (row_mask method min_cv_opening)

/-- C4 counterexample: a sample with differential_pressure = -1 ≤ 0 fed to the
cube-root speed-variation law does not make the stage fail with a typed error:
the stage returns ok with a silent NaN for that sample. -/
theorem C4_counterexample :
    ((-1 : ℚ) ≤ 0) ∧
      get_required_speed_variation_step [((-1 : ℚ), 1)] =
        Except.ok [SpeedVariation.nan] := by
  constructor
  · norm_num
  · simp [get_required_speed_variation_step, get_speed_variation]

/-- C4 amended: the speed-variation stage never raises: it returns ok on every
input, silently yielding NaN, +inf or even a finite value on samples with
differential_pressure ≤ 0.  Such samples cannot reach the law through the
cleaner pipeline, because remove_non_operating_rows keeps only rows whose
suction pressure is strictly below their discharge pressure, so every
surviving row has differential_pressure > 0. -/
theorem C4_no_guard_but_filtered :
    (∀ rows : List (ℚ × ℚ), except_is_ok (get_required_speed_variation_step rows) = true) ∧
    (∀ (method : CalculationMethod) (mco : ℚ) (rows : List OpRow),
      ∀ r ∈ remove_non_operating_rows method mco rows,
        0 < get_differential_pressure r.discharge_pressure r.suction_pressure) := by
  constructor
  · intro rows
    rfl
  · intro method mco rows r hr
    have hm : row_mask method mco r = true := List.of_mem_filter hr
    have hlt : r.suction_pressure < r.discharge_pressure := by
      simp only [row_mask, Bool.and_eq_true, decide_eq_true_eq] at hm
      exact hm.1.2
    simpa [get_differential_pressure] using sub_pos.mpr hlt

/-- Witness for the amended C4: a sample with negative differential pressure
passes through the speed-variation stage without an error, and a concrete row
kept by remove_non_operating_rows (suction 1 below discharge 2) has positive
differential pressure. -/
theorem C4_witness :
    except_is_ok (get_required_speed_variation_step [((-2 : ℚ), -1)]) = true ∧
      0 < get_differential_pressure 2 1 :=
  ⟨C4_no_guard_but_filtered.1 [((-2 : ℚ), -1)],
    C4_no_guard_but_filtered.2 CalculationMethod.downstream_pressure 0
      [⟨1, 2, 5, some 1, none⟩] ⟨1, 2, 5, some 1, none⟩ (by decide)⟩

/-- Modelled from the spec: the mandatory operating-data column identifiers
{suction_pressure, discharge_pressure, discharge_flowrate}.  The sources of
the src/src tree reference them as PumpOperationVariables constants from a
definitions module that is not among the source files, so the spec's
canonical names stand for those constants. -/
def mandatory_columns : List String :=
  ["suction_pressure", "discharge_pressure", "discharge_flowrate"]

/-- Mandatory columns absent from a table's column list, in mandatory-column
order, as computed by the list comprehension in
PumpDataCleaner.__check_mandatory_columns. -/
def missing_columns (cols : List String) : List String :=
  mandatory_columns.filter (fun c => decide (c ∉ cols))

/-- From src/src/rotalysis/pump/data_cleaner.py,
PumpDataCleaner.__check_mandatory_columns (lines 120-135): when any mandatory
column is absent, raise a CustomException whose message interpolates the
comma-joined missing column names; the error payload here carries that list
of names. -/
def check_mandatory_columns (cols : List String) : Except (List String) Unit :=
  if 0 < (missing_columns cols).length then Except.error (missing_columns cols)
  else Except.ok ()

/-- C7: a table missing at least one mandatory column makes the check fail
with an error listing exactly the missing mandatory column names (a name is
listed iff it is mandatory and absent). -/
theorem C7_missing_columns_error (cols : List String)
    (h : ∃ m ∈ mandatory_columns, m ∉ cols) :
    check_mandatory_columns cols = Except.error (missing_columns cols) ∧
      ∀ c, c ∈ missing_columns cols ↔ (c ∈ mandatory_columns ∧ c ∉ cols) := by
  constructor
  · obtain ⟨m, hm, hmc⟩ := h
    have hmem : m ∈ missing_columns cols := by
      simp [missing_columns, List.mem_filter, hm, hmc]
    have hlen : 0 < (missing_columns cols).length :=
      List.length_pos.mpr (List.ne_nil_of_mem hmem)
    simp [check_mandatory_columns, hlen]
  · intro c
    simp [missing_columns, List.mem_filter]

/-- Witness for C7: a table with only suction_pressure and discharge_flowrate
is missing exactly discharge_pressure, and the check fails naming exactly
that column. -/
theorem C7_witness :
    (∃ m ∈ mandatory_columns, m ∉ ["suction_pressure", "discharge_flowrate"]) ∧
      check_mandatory_columns ["suction_pressure", "discharge_flowrate"] =
        Except.error ["discharge_pressure"] := by
  refine ⟨by decide, ?_⟩
  have h := (C7_missing_columns_error ["suction_pressure", "discharge_flowrate"]
    (by decide)).1
  have h2 : missing_columns ["suction_pressure", "discharge_flowrate"] =
      ["discharge_pressure"] := by decide
  rw [h, h2]

/-- ASCII lowercase of a string, modelling the Python str.lower call applied
to the flowrate unit. -/
def py_to_lower (s : String) : String := String.mk (s.data.map Char.toLower)

/-- The flowrate unit conversion dictionary of
PumpDataCleaner.convert_default_unit (src/src/rotalysis/pump/data_cleaner.py
lines 155-205), as a partial map on unit strings. -/
def flowrate_conversion (fu : String) : Option ℚ :=
  if fu = "m3/hr" then some 1
  else if fu = "default" then some 1
  else if fu = "bpd" then some (66245/10000000)
  else if fu = "gpm" then some (22712/100000)
  else if fu = "bph" then some (15899/100000)
  else if fu = "mbph" then some (15899/100)
  else none

/-- The pressure unit conversion dictionary of the same method. -/
def pressure_conversion (pu : String) : Option ℚ :=
  if pu = "bar" then some 1
  else if pu = "psi" then some (689476/10000000)
  else none

/-- Error message raised for an unsupported flowrate unit. -/
def flowrate_unit_error (fu : String) : String :=
  "Flowrate unit " ++ fu ++ " is not supported."

/-- The unit-bearing columns of the operating-data table handled by
convert_default_unit; downstream_pressure is none when the column is absent. -/
structure OperationColumns where
  discharge_flowrate : List ℚ
  suction_pressure : List ℚ
  discharge_pressure : List ℚ
  downstream_pressure : Option (List ℚ)
deriving DecidableEq

/-- From src/src/rotalysis/pump/data_cleaner.py,
PumpDataCleaner.convert_default_unit: the lowercased flowrate unit must be in
the flowrate dictionary, else a CustomException is raised; the flowrate
column and the rated flow are scaled by its factor.  The pressure unit is
looked up with dictionary get and default 1 - an unrecognized pressure unit
silently leaves the pressure columns unchanged. -/
def convert_default_unit (flowrate_unit pressure_unit : String) (rated_flow : ℚ)
    (data : OperationColumns) : Except String (ℚ × OperationColumns) :=
  match flowrate_conversion (py_to_lower flowrate_unit) with
  | none => Except.error (flowrate_unit_error (py_to_lower flowrate_unit))
  | some k =>
      let p := (pressure_conversion pressure_unit).getD 1
      Except.ok (rated_flow * k,
        { discharge_flowrate := data.discharge_flowrate.map (fun x => x * k),
          suction_pressure := data.suction_pressure.map (fun x => x * p),
          discharge_pressure := data.discharge_pressure.map (fun x => x * p),
          downstream_pressure :=
            data.downstream_pressure.map (fun l => l.map (fun x => x * p)) })

/-- C9: unit conversion is asymmetric in its error handling.  For every
pressure-unit string other than bar and psi the conversion succeeds with
factor 1 (pressure columns pass through unchanged, no error), while a
flowrate-unit string outside the supported dictionary makes the method fail
with a CustomException. -/
theorem C9_unit_conversion_asymmetry :
    (∀ pu : String, pu ≠ "bar" → pu ≠ "psi" →
      ∀ (fu : String) (k : ℚ), flowrate_conversion (py_to_lower fu) = some k →
      ∀ (rated : ℚ) (data : OperationColumns),
        convert_default_unit fu pu rated data =
          Except.ok (rated * k,
            { data with
              discharge_flowrate := data.discharge_flowrate.map (fun x => x * k) })) ∧
    (∀ fu : String, flowrate_conversion (py_to_lower fu) = none →
      ∀ (pu : String) (rated : ℚ) (data : OperationColumns),
        convert_default_unit fu pu rated data =
          Except.error (flowrate_unit_error (py_to_lower fu))) := by
  constructor
  · intro pu hbar hpsi fu k hk rated data
    have hp : pressure_conversion pu = none := by
      simp [pressure_conversion, hbar, hpsi]
    simp [convert_default_unit, hk, hp]
  · intro fu hfu pu rated data
    simp [convert_default_unit, hfu]

/-- Witness for C9: pressure unit kPa passes pressures through unchanged with
flowrate unit M3/HR (lowercased to a supported key), while flowrate unit
liters raises the unsupported-unit error. -/
theorem C9_witness :
    convert_default_unit "M3/HR" "kPa" 7 ⟨[3], [1], [2], some [5]⟩ =
        Except.ok (7 * 1, ⟨[3 * 1], [1], [2], some [5]⟩) ∧
      convert_default_unit "liters" "bar" 7 ⟨[3], [1], [2], none⟩ =
        Except.error (flowrate_unit_error (py_to_lower "liters")) :=
  ⟨C9_unit_conversion_asymmetry.1 "kPa" (by decide) (by decide) "M3/HR" 1
      (by decide) 7 ⟨[3], [1], [2], some [5]⟩,
    C9_unit_conversion_asymmetry.2 "liters" (by decide) "bar" 7 ⟨[3], [1], [2], none⟩⟩

/-- Pump control strategy enum referenced by EnergySavingsCalculator:
VARIABLE_SPEED_DRIVE is the VSD strategy and DISCHARGE_VALVE_THROTTLING is
the branch implementing the Impeller (fixed trim) strategy in
_select_speed_reduction. -/
inductive PumpControlStrategy where
  | variable_speed_drive : PumpControlStrategy
  | discharge_valve_throttling : PumpControlStrategy
deriving DecidableEq

/-- One row of the flow-bin table entering
EnergySavingsCalculator._select_speed_reduction: its working_percent and its
required_speed_variation (none for a NaN cell). -/
structure BinRow where
  working_percent : ℚ
  required_speed_variation : Option ℚ
deriving DecidableEq

/-- A bin row after the selected_speed_variation column has been assigned
(none models a NaN cell). -/
structure SelRow where
  working_percent : ℚ
  required_speed_variation : Option ℚ
  selected_speed_variation : Option ℚ
deriving DecidableEq

/-- The scalar the Impeller branch assigns: the pandas max of the
required_speed_variation values over rows with working_percent > 0, NaN
values dropped (none when that set is empty, i.e. a NaN max). -/
def impeller_trim_speed (rows : List BinRow) : Option ℚ :=
  ((rows.filter (fun r => decide (0 < r.working_percent))).filterMap
    (fun r => r.required_speed_variation)).max?

/-- From src/src/rotalysis/pump/energy_calculator.py,
EnergySavingsCalculator._select_speed_reduction (lines 145-180): under VSD
every row's selected_speed_variation is its required_speed_variation; under
DISCHARGE_VALVE_THROTTLING (Impeller) every row with working_percent > 0 is
assigned the dropna max of required_speed_variation over rows with
working_percent > 0; finally every row with working_percent ≤ 0 is assigned
selected_speed_variation 0. -/
def select_speed_reduction (strategy : PumpControlStrategy) (rows : List BinRow) :
    List SelRow :=
  let base : List SelRow := rows.map (fun r =>
    SelRow.mk r.working_percent r.required_speed_variation none)
  let staged : List SelRow :=
    match strategy with
    | PumpControlStrategy.variable_speed_drive =>
        base.map (fun r : SelRow =>
          { r with selected_speed_variation := r.required_speed_variation })
    | PumpControlStrategy.discharge_valve_throttling =>
        base.map (fun r : SelRow =>
          if 0 < r.working_percent
          then { r with selected_speed_variation := impeller_trim_speed rows }
          else r)
  staged.map (fun r : SelRow =>
    if r.working_percent ≤ 0 then { r with selected_speed_variation := some 0 } else r)

/-- C6: under the Impeller strategy every output row with working_percent > 0
carries the same scalar selected_speed_variation, the dropna max of
required_speed_variation over bins with working_percent > 0, and every output
row with working_percent ≤ 0 carries selected_speed_variation 0. -/
theorem C6_impeller_selects_max (rows : List BinRow) (r : SelRow)
    (hr : r ∈ select_speed_reduction PumpControlStrategy.discharge_valve_throttling rows) :
    (0 < r.working_percent → r.selected_speed_variation = impeller_trim_speed rows) ∧
      (r.working_percent ≤ 0 → r.selected_speed_variation = some 0) := by
  simp only [select_speed_reduction, List.map_map, List.mem_map,
    Function.comp] at hr
  obtain ⟨b, hb, rfl⟩ := hr
  by_cases hwp : 0 < b.working_percent
  · have hnle : ¬ b.working_percent ≤ 0 := not_le.mpr hwp
    simp [hwp, hnle]
  · have hle : b.working_percent ≤ 0 := not_lt.mp hwp
    simp [hwp, hle]

/-- Witness for C6 on a three-bin table: a visited bin (working_percent 2)
receives the max 4 over visited bins, even though its own required speed
variation is 3. -/
theorem C6_witness :
    (SelRow.mk 2 (some 3) (some 4) ∈
        select_speed_reduction PumpControlStrategy.discharge_valve_throttling
          [⟨2, some 3⟩, ⟨2, some 4⟩, ⟨0, some 1⟩]) ∧
      (SelRow.mk 2 (some 3) (some 4)).selected_speed_variation =
        impeller_trim_speed [⟨2, some 3⟩, ⟨2, some 4⟩, ⟨0, some 1⟩] := by
  constructor
  · decide
  · exact (C6_impeller_selects_max
      [⟨2, some 3⟩, ⟨2, some 4⟩, ⟨0, some 1⟩]
      (SelRow.mk 2 (some 3) (some 4)) (by decide)).1 (by decide)

/-- The working_percent assignment of group_by_flowrate_percent: pair each
bin's working_hours with working_hours / (sum of working_hours), mirroring
df2[working_percent] = df2[working_hours] / df2[working_hours].sum().
Division by a zero total yields 0 here where pandas yields NaN; both compare
as not greater than 0 in the subsequent filter. -/
def add_working_percent (hours : List ℚ) : List (ℚ × ℚ) :=
  hours.map (fun h => (h, h / hours.sum))

/-- The zeroing step of group_by_flowrate_percent: rows whose working_percent
is below the configured minimum get both working_hours and working_percent
set to 0. -/
def zero_below (thr : ℚ) (rows : List (ℚ × ℚ)) : List (ℚ × ℚ) :=
  rows.map (fun r => if r.2 < thr then ((0:ℚ), (0:ℚ)) else r)

/-- The rescaling step df2[working_hours] = df2[working_percent] * 8760. -/
def scale_hours (rows : List (ℚ × ℚ)) : List (ℚ × ℚ) :=
  rows.map (fun r => (r.2 * 8760, r.2))

/-- From src/src/rotalysis/pump/data_cleaner.py,
PumpDataCleaner.group_by_flowrate_percent (lines 556-600), restricted to the
(working_hours, working_percent) columns, the only columns the grouping
itself creates.  The input is the per-bin sample count delivered by the
groupby size aggregation; then, exactly as in the source: working_percent is
working_hours over total hours; bins below the minimum working percent are
zeroed; working_percent is recomputed and working_hours rescaled to a
8760-hour year; bins with nonpositive working_percent are dropped; and
working_percent and working_hours are renormalized once more. -/
def group_by_flowrate_percent (thr : ℚ) (counts : List ℕ) : List (ℚ × ℚ) :=
  scale_hours (add_working_percent
    (((scale_hours (add_working_percent
        ((zero_below thr (add_working_percent
          (counts.map (fun c : ℕ => (c : ℚ))))).map Prod.fst))).filter
      (fun r => decide (0 < r.2))).map Prod.fst))

/-- Projecting the hours column out of add_working_percent recovers the input. -/
theorem add_working_percent_map_fst (hours : List ℚ) :
    (add_working_percent hours).map Prod.fst = hours := by
  simp [add_working_percent, List.map_map, Function.comp_def]

/-- The percent column of add_working_percent is the input divided by its sum. -/
theorem add_working_percent_map_snd (hours : List ℚ) :
    (add_working_percent hours).map Prod.snd =
      hours.map (fun h => h / hours.sum) := by
  simp [add_working_percent, List.map_map, Function.comp_def]

/-- Summing a list of rationals divided by a constant. -/
theorem sum_map_div (l : List ℚ) (S : ℚ) :
    (l.map (fun x => x / S)).sum = l.sum / S := by
  induction l with
  | nil => simp
  | cons a t ih => simp [ih, add_div]

/-- Summing a list of rationals scaled by a constant. -/
theorem sum_map_mul_const (l : List ℚ) (c : ℚ) :
    (l.map (fun x => x * c)).sum = l.sum * c := by
  induction l with
  | nil => simp
  | cons a t ih => simp [ih, add_mul]

/-- The hours column of scale_hours is the percent column scaled by 8760. -/
theorem scale_hours_map_fst (rows : List (ℚ × ℚ)) :
    (scale_hours rows).map Prod.fst =
      (rows.map Prod.snd).map (fun x => x * 8760) := by
  simp [scale_hours, List.map_map, Function.comp_def]

/-- The percent column of scale_hours is unchanged. -/
theorem scale_hours_map_snd (rows : List (ℚ × ℚ)) :
    (scale_hours rows).map Prod.snd = rows.map Prod.snd := by
  simp [scale_hours, List.map_map, Function.comp_def]

/-- Dropping rows with nonpositive percent does not change the hours total
when every such row carries zero hours. -/
theorem sum_fst_filter_pos (l : List (ℚ × ℚ))
    (h : ∀ r ∈ l, ¬ 0 < r.2 → r.1 = 0) :
    ((l.filter (fun r => decide (0 < r.2))).map Prod.fst).sum =
      (l.map Prod.fst).sum := by
  induction l with
  | nil => simp
  | cons a t ih =>
    have ht : ∀ r ∈ t, ¬ 0 < r.2 → r.1 = 0 :=
      fun r hr => h r (List.mem_cons_of_mem a hr)
    by_cases ha : 0 < a.2
    · simp [List.filter_cons, ha, ih ht]
    · have ha0 : a.1 = 0 := h a (List.mem_cons_self a t) ha
      simp [List.filter_cons, ha, ih ht, ha0]

/-- A list of rationals with positive sum has a positive element. -/
theorem exists_pos_of_sum_pos (l : List ℚ) (h : 0 < l.sum) : ∃ x ∈ l, 0 < x := by
  induction l with
  | nil => simp at h
  | cons a t ih =>
    by_cases ha : 0 < a
    · exact ⟨a, List.mem_cons_self a t, ha⟩
    · rw [List.sum_cons] at h
      have ha' : a ≤ 0 := not_lt.mp ha
      have hts : 0 < t.sum := by linarith
      obtain ⟨x, hx, hpx⟩ := ih hts
      exact ⟨x, List.mem_cons_of_mem a hx, hpx⟩

/-- Summing a list divided by one constant and scaled by another. -/
theorem sum_map_div_mul_const (l : List ℚ) (S c : ℚ) :
    (l.map (fun x => x / S * c)).sum = l.sum / S * c := by
  induction l with
  | nil => simp
  | cons a t ih => simp [ih, add_div, add_mul]

/-- The final renormalization of group_by_flowrate_percent: starting from any
nonnegative working-hours column with positive total, rescaling to 8760 h,
dropping nonpositive-percent rows and renormalizing once more yields a table
whose percent column sums to 1, whose hours column sums to 8760, and whose
rows all have positive working_percent. -/
theorem renormalize_sums (h : List ℚ) (hnn : ∀ x ∈ h, 0 ≤ x) (hpos : 0 < h.sum) :
    ((scale_hours (add_working_percent
        (((scale_hours (add_working_percent h)).filter
          (fun r => decide (0 < r.2))).map Prod.fst))).map Prod.snd).sum = 1 ∧
    ((scale_hours (add_working_percent
        (((scale_hours (add_working_percent h)).filter
          (fun r => decide (0 < r.2))).map Prod.fst))).map Prod.fst).sum = 8760 ∧
    ∀ r ∈ scale_hours (add_working_percent
        (((scale_hours (add_working_percent h)).filter
          (fun r => decide (0 < r.2))).map Prod.fst)), 0 < r.2 := by
  have hfail : ∀ r ∈ scale_hours (add_working_percent h), ¬ 0 < r.2 → r.1 = 0 := by
    intro r hr hneg
    simp only [scale_hours, add_working_percent, List.map_map, List.mem_map,
      Function.comp_def] at hr
    obtain ⟨y, hy, rfl⟩ := hr
    have hnn2 : 0 ≤ y / h.sum := div_nonneg (hnn y hy) hpos.le
    have hz : y / h.sum = 0 := le_antisymm (not_lt.mp hneg) hnn2
    simp [hz]
  have hsum4 : ((scale_hours (add_working_percent h)).map Prod.fst).sum = 8760 := by
    rw [scale_hours_map_fst, add_working_percent_map_snd, sum_map_mul_const,
      sum_map_div, div_self (ne_of_gt hpos), one_mul]
  have hWsum : ((((scale_hours (add_working_percent h)).filter
      (fun r => decide (0 < r.2))).map Prod.fst).sum) = 8760 := by
    rw [sum_fst_filter_pos (scale_hours (add_working_percent h)) hfail, hsum4]
  have hWpos : ∀ w ∈ ((scale_hours (add_working_percent h)).filter
      (fun r => decide (0 < r.2))).map Prod.fst, 0 < w := by
    intro w hw
    obtain ⟨r, hr, rfl⟩ := List.mem_map.mp hw
    obtain ⟨hr4, hpr⟩ := List.mem_filter.mp hr
    have h2pos : 0 < r.2 := of_decide_eq_true hpr
    simp only [scale_hours, List.mem_map] at hr4
    obtain ⟨s, _, rfl⟩ := hr4
    exact mul_pos h2pos (by norm_num)
  set W : List ℚ := ((scale_hours (add_working_percent h)).filter
      (fun r => decide (0 < r.2))).map Prod.fst with hWdef
  refine ⟨?_, ?_, ?_⟩
  · rw [scale_hours_map_snd, add_working_percent_map_snd, sum_map_div, hWsum]
    norm_num
  · rw [scale_hours_map_fst, add_working_percent_map_snd, List.map_map,
      Function.comp_def, sum_map_div_mul_const, hWsum]
    norm_num
  · intro r hr
    simp only [scale_hours, add_working_percent, List.map_map, List.mem_map,
      Function.comp_def] at hr
    obtain ⟨w, hw, rfl⟩ := hr
    have hwp := hWpos w hw
    rw [hWsum]
    positivity

/-- The full pipeline of group_by_flowrate_percent after the initial percent
assignment: when the input hours are nonnegative with positive total and at
least one bin survives the minimum-working-percent zeroing, the resulting
table sums to percent 1 and hours 8760 and every row has positive percent. -/
theorem zeroed_pipeline_sums (thr : ℚ) (hours0 : List ℚ)
    (h0nn : ∀ x ∈ hours0, 0 ≤ x) (htot : 0 < hours0.sum)
    (hsurv : ∃ x ∈ hours0, thr ≤ x / hours0.sum) :
    ((scale_hours (add_working_percent
        (((scale_hours (add_working_percent
          ((zero_below thr (add_working_percent hours0)).map Prod.fst))).filter
        (fun r => decide (0 < r.2))).map Prod.fst))).map Prod.snd).sum = 1 ∧
    ((scale_hours (add_working_percent
        (((scale_hours (add_working_percent
          ((zero_below thr (add_working_percent hours0)).map Prod.fst))).filter
        (fun r => decide (0 < r.2))).map Prod.fst))).map Prod.fst).sum = 8760 ∧
    ∀ r ∈ scale_hours (add_working_percent
        (((scale_hours (add_working_percent
          ((zero_below thr (add_working_percent hours0)).map Prod.fst))).filter
        (fun r => decide (0 < r.2))).map Prod.fst)), 0 < r.2 := by
  have h2eq : (zero_below thr (add_working_percent hours0)).map Prod.fst =
      hours0.map (fun x => if x / hours0.sum < thr then 0 else x) := by
    simp [zero_below, add_working_percent, List.map_map, Function.comp_def,
      apply_ite Prod.fst]
  have h2nn : ∀ y ∈ (zero_below thr (add_working_percent hours0)).map Prod.fst,
      0 ≤ y := by
    intro y hy
    rw [h2eq] at hy
    obtain ⟨x, hx, rfl⟩ := List.mem_map.mp hy
    by_cases hc : x / hours0.sum < thr
    · simp [hc]
    · simpa [hc] using h0nn x hx
  have hS2pos : 0 < ((zero_below thr (add_working_percent hours0)).map
      Prod.fst).sum := by
    obtain ⟨c, hc, hcth⟩ := hsurv
    by_cases hc0 : 0 < c
    · have hmem : c ∈ (zero_below thr (add_working_percent hours0)).map
          Prod.fst := by
        rw [h2eq]
        refine List.mem_map.mpr ⟨c, hc, ?_⟩
        rw [if_neg (not_lt.mpr hcth)]
      exact lt_of_lt_of_le hc0 (List.single_le_sum h2nn _ hmem)
    · have hceq : c = 0 := le_antisymm (not_lt.mp hc0) (h0nn c hc)
      have hthr0 : thr ≤ 0 := by
        rw [hceq, zero_div] at hcth
        exact hcth
      obtain ⟨x, hx, hxpos⟩ := exists_pos_of_sum_pos _ htot
      have hmem : x ∈ (zero_below thr (add_working_percent hours0)).map
          Prod.fst := by
        rw [h2eq]
        refine List.mem_map.mpr ⟨x, hx, ?_⟩
        rw [if_neg (not_lt.mpr (le_trans hthr0 (div_nonneg (h0nn x hx) htot.le)))]
      exact lt_of_lt_of_le hxpos (List.single_le_sum h2nn _ hmem)
  exact renormalize_sums _ h2nn hS2pos

/-- C1: for every table produced by group_by_flowrate_percent from a
non-empty input (positive total sample count) in which at least one bin
survives the minimum-working-percent zeroing, the sum of working_percent
over bins with working_percent > 0 is exactly 1 and the sum of working_hours
over those bins is exactly 8760 (exact equality implies the claimed 1e-9 and
1e-6 tolerances). -/
theorem C1_bin_renormalization_invariant (thr : ℚ) (counts : List ℕ)
    (htot : 0 < ((counts.map (fun c : ℕ => (c : ℚ))).sum))
    (hsurv : ∃ c ∈ counts,
      thr ≤ (c : ℚ) / ((counts.map (fun c : ℕ => (c : ℚ))).sum)) :
    (((group_by_flowrate_percent thr counts).filter
        (fun r => decide (0 < r.2))).map Prod.snd).sum = 1 ∧
    (((group_by_flowrate_percent thr counts).filter
        (fun r => decide (0 < r.2))).map Prod.fst).sum = 8760 := by
  have h0nn : ∀ x ∈ counts.map (fun c : ℕ => (c : ℚ)), 0 ≤ x := by
    intro x hx
    obtain ⟨c, _, rfl⟩ := List.mem_map.mp hx
    exact Nat.cast_nonneg c
  have hsurv' : ∃ x ∈ counts.map (fun c : ℕ => (c : ℚ)),
      thr ≤ x / (counts.map (fun c : ℕ => (c : ℚ))).sum := by
    obtain ⟨c, hc, hcth⟩ := hsurv
    exact ⟨(c : ℚ), List.mem_map.mpr ⟨c, hc, rfl⟩, hcth⟩
  obtain ⟨hs1, hs2, hall⟩ := zeroed_pipeline_sums thr _ h0nn htot hsurv'
  have hfe : (group_by_flowrate_percent thr counts).filter
      (fun r => decide (0 < r.2)) = group_by_flowrate_percent thr counts := by
    apply List.filter_eq_self.mpr
    intro r hr
    exact decide_eq_true (hall r hr)
  rw [hfe]
  exact ⟨hs1, hs2⟩

/-- When every bin of the input falls below the threshold, the pipeline after
the initial percent assignment produces the empty table. -/
theorem zeroed_pipeline_empty (thr : ℚ) (hours0 : List ℚ)
    (hall : ∀ x ∈ hours0, x / hours0.sum < thr) :
    scale_hours (add_working_percent
        (((scale_hours (add_working_percent
          ((zero_below thr (add_working_percent hours0)).map Prod.fst))).filter
        (fun r => decide (0 < r.2))).map Prod.fst)) = [] := by
  have h2zero : ∀ y ∈ (zero_below thr (add_working_percent hours0)).map Prod.fst,
      y = 0 := by
    intro y hy
    have h2eq : (zero_below thr (add_working_percent hours0)).map Prod.fst =
        hours0.map (fun x => if x / hours0.sum < thr then 0 else x) := by
      simp [zero_below, add_working_percent, List.map_map, Function.comp_def,
        apply_ite Prod.fst]
    rw [h2eq] at hy
    obtain ⟨x, hx, rfl⟩ := List.mem_map.mp hy
    rw [if_pos (hall x hx)]
  have hfilter : (scale_hours (add_working_percent ((zero_below thr
      (add_working_percent hours0)).map Prod.fst))).filter
      (fun r => decide (0 < r.2)) = [] := by
    apply List.filter_eq_nil_iff.mpr
    intro r hr
    unfold scale_hours at hr
    obtain ⟨s, hs, rfl⟩ := List.mem_map.mp hr
    unfold add_working_percent at hs
    obtain ⟨y, hy, rfl⟩ := List.mem_map.mp hs
    have hy0 : y = 0 := h2zero y hy
    simp [hy0]
  rw [hfilter]
  simp [add_working_percent, scale_hours]

/-- C10: if after grouping every bin working_percent falls below the
configured minimum, group_by_flowrate_percent zeroes all bins, no bin has
working_percent > 0, and the returned table is empty; the function is total
and raises no error (the pandas 0/0 NaN percent is modelled as 0, and both
compare as not greater than 0 in the final filter). -/
theorem C10_all_below_threshold_empty (thr : ℚ) (counts : List ℕ)
    (hall : ∀ c ∈ counts,
      (c : ℚ) / ((counts.map (fun c : ℕ => (c : ℚ))).sum) < thr) :
    group_by_flowrate_percent thr counts = [] := by
  have hall' : ∀ x ∈ counts.map (fun c : ℕ => (c : ℚ)),
      x / (counts.map (fun c : ℕ => (c : ℚ))).sum < thr := by
    intro x hx
    obtain ⟨c, hc, rfl⟩ := List.mem_map.mp hx
    exact hall c hc
  exact zeroed_pipeline_empty thr _ hall'

/-- Witness for C1: one bin holding the single sample with threshold 1
survives, and the output sums are exactly 1 and 8760. -/
theorem C1_witness :
    (((group_by_flowrate_percent 1 [1]).filter
        (fun r => decide (0 < r.2))).map Prod.snd).sum = 1 ∧
    (((group_by_flowrate_percent 1 [1]).filter
        (fun r => decide (0 < r.2))).map Prod.fst).sum = 8760 :=
  C1_bin_renormalization_invariant 1 [1] (by norm_num)
    ⟨1, by norm_num, by norm_num⟩

/-- Witness for C10: two bins of one sample each with threshold 1 are both
below the minimum working percent, and the returned table is empty. -/
theorem C10_witness : group_by_flowrate_percent 1 [1, 1] = [] :=
  C10_all_below_threshold_empty 1 [1, 1] (by
    intro c hc
    have hc1 : c = 1 := by simpa using hc
    subst hc1
    norm_num)
